import Mathlib

/-!
Shallow embedding of `src/app.py` (a password-gated Streamlit dashboard that
plots animal-shelter metrics), together with theorems checking the spec's
claims against it.

Modelling conventions:
* a pandas `DataFrame` is a list of column names plus a list of rows; a row
  carries the three specially-treated fields (`organization_id`,
  `organization_name`, `yyyymmdd`) plus a total valuation of the metric
  columns by name (cells are exact rationals; the claims under study concern
  non-NaN data, and C8 restricts itself to non-NaN input explicitly);
* `st.session_state` is a record of the two keys the gate uses;
* the four CSV parsing strategies of `_read_csv_bytes` are pandas calls and
  hence opaque here: they are abstracted as arbitrary fallible functions and
  the orchestration (order of fallbacks, error propagation) is embedded;
* `pd.rolling(window, min_periods=1, center=True).mean()` is embedded by
  pandas' fixed-window indexer semantics: the window labelled `i` covers the
  positions `[i + 1 + (w-1)/2 - w, i + (w-1)/2]` clipped to the series, and a
  window holding fewer than `min_periods` points yields a missing value;
* `DataFrame.sort_values` is a comparison sort on the date key (the claims
  depend only on sortedness of the result, not the sorting algorithm).
-/

namespace SacApp

/-- A row of the shelter-metrics dataset. `cell` gives the value of any
metric column by name (total: the claims concern non-NaN data). -/
structure Row where
  organization_id : Int
  organization_name : String
  yyyymmdd : Int
  cell : String → ℚ

/-- The in-memory dataset: the set of columns present plus the rows. -/
structure DataFrame where
  columns : List String
  rows : List Row

/-- Errors a plot operation can raise (`raise ValueError`, `raise KeyError`). -/
inductive PlotError where
  | valueError (msg : String)
  | keyError (msg : String)
deriving DecidableEq

/-- A plotly `go.Scatter` trace as built by `fig.add_trace(...)`:
the fields the claims talk about. `y` cells are optional because a rolling
mean with too few points yields a missing value. -/
structure Trace where
  name : String
  x : List Int
  y : List (Option ℚ)
  mode : String
  stackgroup : Option String
  hovertemplate : String
deriving DecidableEq

/-- A plotly figure: its traces in insertion order, and the title. -/
structure Figure where
  traces : List Trace
  title : String
deriving DecidableEq

/-! ## Password gate (`check_password`, lines 14-40) -/

/-- The slice of `st.session_state` used by the gate. -/
structure SessionState where
  auth_passed : Option Bool
  password : Option String

/-- What a run of `check_password` does: fall through the gate, or halt
(`st.stop()`), having shown the "Incorrect password" error or not. -/
inductive GateResult where
  | proceed
  | halted (showedIncorrectPassword : Bool)
deriving DecidableEq

/-- The `password_entered` callback: compares the entered password with the
stored secret and records the verdict in `auth_passed`. -/
def password_entered (secret : String) (s : SessionState) : SessionState :=
  { s with auth_passed := some (s.password == some secret) }

/-- `check_password`: no verdict yet means show the input box and stop;
a failed verdict means show the input box, show "Incorrect password", stop;
a passed verdict falls through to the content past the gate. -/
def check_password (s : SessionState) : GateResult :=
  match s.auth_passed with
  | none => .halted false
  | some false => .halted true
  | some true => .proceed

/-! ## Robust CSV loader (`_read_csv_bytes`, lines 47-91)

The four parsing strategies are `pd.read_csv` calls and are abstracted as
arbitrary fallible functions; what is embedded is the fallback orchestration:
try 1, on any exception try 2, then 3, then 4, and re-raise only the fourth
strategy's exception. -/

def read_csv_bytes {β ε α : Type} (strat1 strat2 strat3 strat4 : β → Except ε α)
    (raw_bytes : β) : Except ε α :=
  match strat1 raw_bytes with
  | .ok df => .ok df
  | .error _ =>
    match strat2 raw_bytes with
    | .ok df => .ok df
    | .error _ =>
      match strat3 raw_bytes with
      | .ok df => .ok df
      | .error _ => strat4 raw_bytes

/-! ## Shared helpers of the plot functions -/

/-- `data[data["organization_id"] == org_id]` (lines 172, 251). -/
def filterOrg (data : DataFrame) (org_id : Int) : List Row :=
  data.rows.filter (fun r => r.organization_id == org_id)

/-- `assert_columns_present` (lines 154-157): `KeyError` iff a required
column is missing from the dataframe. -/
def assert_columns_present (data : DataFrame) (cols : List String) :
    Except PlotError Unit :=
  if cols.all (fun c => data.columns.contains c) then .ok ()
  else .error (.keyError ("Missing required columns"))

/-- The comparison used by `sort_values("yyyymmdd")`. -/
def dateLE (a b : Row) : Prop := a.yyyymmdd ≤ b.yyyymmdd

instance : DecidableRel dateLE := fun a b => Int.decLe a.yyyymmdd b.yyyymmdd

instance : IsTotal Row dateLE := ⟨fun a b => Int.le_total a.yyyymmdd b.yyyymmdd⟩

instance : IsTrans Row dateLE := ⟨fun _ _ _ h h' => le_trans h h'⟩

/-- `org_data.sort_values("yyyymmdd")` (lines 193, 270). -/
def sortByDate (rows : List Row) : List Row :=
  List.insertionSort dateLE rows

/-- The stored values of column `c` over the given rows, in row order. -/
def seriesFor (rows : List Row) (c : String) : List ℚ :=
  rows.map (fun r => r.cell c)

/-! ## Rolling mean (`.rolling(window=window, min_periods=1, center=True).mean()`,
lines 198 and 273) -/

/-- Pandas' centering offset for a fixed window: `(window_size - 1) // 2`. -/
def rollOffset (window : Nat) : Nat := (window - 1) / 2

/-- The slice of `xs` covered by the centred window labelled `i`:
positions `[i + 1 + rollOffset - window, i + rollOffset]`, clipped to the
series (natural subtraction performs the left clip). -/
def windowSlice (window : Nat) (xs : List ℚ) (i : Nat) : List ℚ :=
  (xs.take (i + 1 + rollOffset window)).drop (i + 1 + rollOffset window - window)

/-- The rolling mean: one output cell per input position; a window holding
fewer than `min_periods` points yields a missing value, otherwise the
arithmetic mean of the points in the window. -/
def rollingMeanCenter (window min_periods : Nat) (xs : List ℚ) :
    List (Option ℚ) :=
  (List.range xs.length).map (fun i =>
    let win := windowSlice window xs i
    if win.length < min_periods then none
    else some (win.sum / (win.length : ℚ)))

/-- The series as handed to a trace: smoothed by the rolling mean when
`smooth` is set, otherwise the stored values unchanged. -/
def smoothSeries (smooth : Bool) (window : Nat) (xs : List ℚ) :
    List (Option ℚ) :=
  if smooth then rollingMeanCenter window 1 xs else xs.map some

/-! ## Exit-distribution plot (`plot_monthly_exit_distribution_interactive`,
lines 163-240) -/

/-- The `column_map` of lines 182-189: metric column ↦ display name, with
"No Exit" added for every type other than `"_cond"`. -/
def exitColumnMap (type suffix : String) : List (String × String) :=
  [("PAdopt_monthly" ++ type ++ suffix, "Adopt"),
   ("PReclaim_monthly" ++ type ++ suffix, "Reclaim"),
   ("PTransfer_monthly" ++ type ++ suffix, "Transfer"),
   ("PNonlive_monthly" ++ type ++ suffix, "Non-live")] ++
  (if type ≠ "_cond" then [("PNoExit_monthly" ++ type ++ suffix, "No Exit")]
   else [])

/-- The fixed iteration order of the trace-building loop (line 212). -/
def exitTraceOrder : List String :=
  ["Adopt", "Reclaim", "Transfer", "Non-live", "No Exit"]

/-- The hover template of an exit trace (lines 224-227). -/
def exitHover (col : String) : String :=
  "<b>Date:</b> %\x7bx|%b %Y\x7d<br>" ++ "<b>" ++ col ++
    ":</b> %\x7by:.1%\x7d<extra></extra>"

/-- `org_name = org_data["organization_name"].iloc[0]` when the column is
present, else `str(org_id)` (lines 176, 255). -/
def orgNameOf (data : DataFrame) (org_rows : List Row) (org_id : Int) : String :=
  if data.columns.contains ("organization_name") then
    ((org_rows.head?).map Row.organization_name).getD (toString org_id)
  else toString org_id

def plot_monthly_exit_distribution_interactive (data : DataFrame)
    (org_id : Int) (type suffix : String) (title : Option String)
    (smooth : Bool) (window : Nat) : Except PlotError Figure :=
  let org_rows := filterOrg data org_id
  if org_rows.isEmpty then .error (.valueError ("No data for this organization_id"))
  else
    let cmap := exitColumnMap type suffix
    match assert_columns_present data (cmap.map Prod.fst) with
    | .error e => .error e
    | .ok _ =>
      let sorted := sortByDate org_rows
      let x_vals := sorted.map Row.yyyymmdd
      let traces := exitTraceOrder.filterMap (fun col =>
        match cmap.find? (fun p => p.2 == col) with
        | none => none
        | some p => some
            { name := col
              x := x_vals
              y := smoothSeries smooth window (seriesFor sorted p.1)
              mode := "lines"
              stackgroup := some ("one")
              hovertemplate := exitHover col })
      .ok { traces := traces
            title := title.getD ("Monthly Exit Probabilities for " ++
              orgNameOf data org_rows org_id ++ " (Zeros Replaced)") }

/-! ## Inventory plot (`plot_inventory_interactive`, lines 243-293) -/

/-- The hover template of the inventory trace (line 282). -/
def inventoryHover : String :=
  "<b>Date:</b> %\x7bx|%b %Y\x7d<br><b>Inventory:</b> %\x7by:.0f\x7d<extra></extra>"

/-- The column-resolution step of lines 260-268: the suffixed variant when
present, else the bare base column when present, else `KeyError`. -/
def resolveInventoryColumn (data : DataFrame) (suffix : String) :
    Except PlotError String :=
  let metric_col := "CInventAvg" ++ suffix
  if data.columns.contains metric_col then .ok metric_col
  else if data.columns.contains ("CInventAvg") then .ok ("CInventAvg")
  else .error (.keyError ("Missing required column: " ++ metric_col))

def plot_inventory_interactive (data : DataFrame) (org_id : Int)
    (suffix : String) (title : Option String) (smooth : Bool) (window : Nat) :
    Except PlotError Figure :=
  let org_rows := filterOrg data org_id
  if org_rows.isEmpty then .error (.valueError ("No data for this organization_id"))
  else
    match resolveInventoryColumn data suffix with
    | .error e => .error e
    | .ok metric_col =>
      let sorted := sortByDate org_rows
      .ok { traces := [
              { name := "Average Daily Inventory"
                x := sorted.map Row.yyyymmdd
                y := smoothSeries smooth window (seriesFor sorted metric_col)
                mode := "lines+markers"
                stackgroup := none
                hovertemplate := inventoryHover }]
            title := title.getD ("Average Daily Inventory for " ++
              orgNameOf data org_rows org_id ++ " (Zeros Replaced)") }

/-- `pat` occurs as a contiguous substring of `s` (used to state that a hover
template formats the date and the value). -/
def occursIn (pat s : String) : Prop :=
  ∃ a b : List Char, s.data = a ++ pat.data ++ b

/-! ## Concrete data for evaluating the development -/

/-- Extract the figure of a successful plot (dummy figure on error). -/
def figOf (r : Except PlotError Figure) : Figure :=
  match r with
  | .ok f => f
  | .error _ => { traces := [], title := "" }

/-- A concrete valuation of the metric columns (one test row's cells). -/
def cellA : String → ℚ := fun c =>
  if c = "CInventAvg_zeros_replaced" then 30
  else if c = "CInventAvg" then 25
  else 1/10

/-- A second concrete valuation of the metric columns. -/
def cellB : String → ℚ := fun c =>
  if c = "CInventAvg_zeros_replaced" then 40
  else if c = "CInventAvg" then 35
  else 1/5

/-- The columns of the test dataset. -/
def colsW : List String :=
  ["organization_id", "organization_name", "yyyymmdd",
   "PAdopt_monthly_abs_zeros_replaced", "PReclaim_monthly_abs_zeros_replaced",
   "PTransfer_monthly_abs_zeros_replaced", "PNonlive_monthly_abs_zeros_replaced",
   "PNoExit_monthly_abs_zeros_replaced",
   "PAdopt_monthly_cond_zeros_replaced", "PReclaim_monthly_cond_zeros_replaced",
   "PTransfer_monthly_cond_zeros_replaced", "PNonlive_monthly_cond_zeros_replaced",
   "CInventAvg_zeros_replaced", "CInventAvg"]

/-- The rows of the test dataset: two rows for organization 1 (dates out of
order, to exercise the sort) and one row for organization 2. -/
def rowsW : List Row :=
  [⟨1, "Shelter A", 20250301, cellB⟩,
   ⟨2, "Shelter B", 20250101, cellA⟩,
   ⟨1, "Shelter A", 20250101, cellA⟩]

/-- The test dataset. -/
def dfW : DataFrame := { columns := colsW, rows := rowsW }

/-- The test dataset with an extra row for another organization appended. -/
def dfV : DataFrame :=
  { columns := colsW, rows := rowsW ++ [⟨2, "Shelter B", 20250201, cellB⟩] }

/-- The test dataset without the suffixed inventory column. -/
def dfNoVariant : DataFrame :=
  { columns := colsW.filter (fun c => !(c == "CInventAvg_zeros_replaced"))
    rows := rowsW }

/-- The test dataset without either inventory column. -/
def dfNoInventory : DataFrame :=
  { columns := colsW.filter
      (fun c => !(c == "CInventAvg_zeros_replaced") && !(c == "CInventAvg"))
    rows := rowsW }

/-- The smoothed absolute exit figure of the test dataset. -/
def figExitSm : Figure :=
  figOf (plot_monthly_exit_distribution_interactive dfW 1 ("_abs")
    "_zeros_replaced" none true 3)

/-- The unsmoothed absolute exit figure of the test dataset. -/
def figExitRaw : Figure :=
  figOf (plot_monthly_exit_distribution_interactive dfW 1 ("_abs")
    "_zeros_replaced" none false 3)

/-- The unsmoothed conditional exit figure of the test dataset. -/
def figExitCond : Figure :=
  figOf (plot_monthly_exit_distribution_interactive dfW 1 ("_cond")
    "_zeros_replaced" none false 3)

/-- The unsmoothed inventory figure of the test dataset. -/
def figInvRaw : Figure :=
  figOf (plot_inventory_interactive dfW 1 ("_zeros_replaced") none false 3)

/-! ## Helper lemmas -/

lemma occursIn_append_left {pat : String} (s t : String) (h : occursIn pat s) :
    occursIn pat (s ++ t) := by
  obtain ⟨a, b, hab⟩ := h
  exact ⟨a, b ++ t.data, by rw [String.data_append, hab]; simp⟩

lemma occursIn_append_right {pat : String} (s t : String) (h : occursIn pat t) :
    occursIn pat (s ++ t) := by
  obtain ⟨a, b, hab⟩ := h
  exact ⟨s.data ++ a, b, by rw [String.data_append, hab]; simp⟩

/-- Both hover templates of the app mention the x (date) placeholder. -/
lemma exitHover_date (col : String) : occursIn ("%\x7bx") (exitHover col) := by
  unfold exitHover
  refine occursIn_append_left _ _ (occursIn_append_left _ _ (occursIn_append_left _ _ ?_))
  exact ⟨"<b>Date:</b> ".data, "|%b %Y\x7d<br>".data, rfl⟩

lemma exitHover_value (col : String) : occursIn ("%\x7by") (exitHover col) := by
  unfold exitHover
  refine occursIn_append_right _ _ ?_
  exact ⟨":</b> ".data, ":.1%\x7d<extra></extra>".data, rfl⟩

lemma inventoryHover_date : occursIn ("%\x7bx") inventoryHover :=
  ⟨"<b>Date:</b> ".data, "|%b %Y\x7d<br><b>Inventory:</b> %\x7by:.0f\x7d<extra></extra>".data, rfl⟩

lemma inventoryHover_value : occursIn ("%\x7by") inventoryHover :=
  ⟨"<b>Date:</b> %\x7bx|%b %Y\x7d<br><b>Inventory:</b> ".data, ":.0f\x7d<extra></extra>".data, rfl⟩

/-- Structure of a successful exit-distribution plot: the organization has
rows, and the traces are exactly those produced by the trace loop over the
sorted, filtered rows. -/
lemma plotExit_ok {df : DataFrame} {org_id : Int} {type suffix : String}
    {title : Option String} {smooth : Bool} {window : Nat} {fig : Figure}
    (h : plot_monthly_exit_distribution_interactive df org_id type suffix title
      smooth window = .ok fig) :
    filterOrg df org_id ≠ [] ∧
    fig.traces = exitTraceOrder.filterMap (fun col =>
      match (exitColumnMap type suffix).find? (fun p => p.2 == col) with
      | none => none
      | some p => some
          { name := col
            x := (sortByDate (filterOrg df org_id)).map Row.yyyymmdd
            y := smoothSeries smooth window
                  (seriesFor (sortByDate (filterOrg df org_id)) p.1)
            mode := "lines"
            stackgroup := some ("one")
            hovertemplate := exitHover col }) := by
  simp only [plot_monthly_exit_distribution_interactive] at h
  cases hE : (filterOrg df org_id).isEmpty with
  | true => rw [hE] at h; simp at h
  | false =>
    rw [hE] at h
    simp only [Bool.false_eq_true, if_false] at h
    have hne : filterOrg df org_id ≠ [] := by
      intro hnil
      rw [hnil] at hE
      simp at hE
    cases hA : assert_columns_present df ((exitColumnMap type suffix).map Prod.fst) with
    | error e => rw [hA] at h; simp at h
    | ok u => rw [hA] at h; simp only [Except.ok.injEq] at h; exact ⟨hne, by rw [← h]⟩

/-- Structure of a successful inventory plot: the organization has rows,
column resolution succeeded, and the figure holds a single trace built from
the resolved column over the sorted, filtered rows. -/
lemma plotInv_ok {df : DataFrame} {org_id : Int} {suffix : String}
    {title : Option String} {smooth : Bool} {window : Nat} {fig : Figure}
    (h : plot_inventory_interactive df org_id suffix title smooth window
      = .ok fig) :
    filterOrg df org_id ≠ [] ∧
    ∃ mc, resolveInventoryColumn df suffix = .ok mc ∧
      fig.traces = [
        { name := "Average Daily Inventory"
          x := (sortByDate (filterOrg df org_id)).map Row.yyyymmdd
          y := smoothSeries smooth window
                (seriesFor (sortByDate (filterOrg df org_id)) mc)
          mode := "lines+markers"
          stackgroup := none
          hovertemplate := inventoryHover }] := by
  simp only [plot_inventory_interactive] at h
  cases hE : (filterOrg df org_id).isEmpty with
  | true => rw [hE] at h; simp at h
  | false =>
    rw [hE] at h
    simp only [Bool.false_eq_true, if_false] at h
    have hne : filterOrg df org_id ≠ [] := by
      intro hnil
      rw [hnil] at hE
      simp at hE
    cases hR : resolveInventoryColumn df suffix with
    | error e => rw [hR] at h; simp at h
    | ok mc =>
      rw [hR] at h
      simp only [Except.ok.injEq] at h
      exact ⟨hne, mc, rfl, by rw [← h]⟩

/-- Membership in the exit-plot trace list: every trace comes from a display
column of the column map, with the y series built from its source column. -/
lemma mem_exitTraces {df : DataFrame} {org_id : Int} {type suffix : String}
    {title : Option String} {smooth : Bool} {window : Nat} {fig : Figure}
    {t : Trace}
    (h : plot_monthly_exit_distribution_interactive df org_id type suffix title
      smooth window = .ok fig) (ht : t ∈ fig.traces) :
    ∃ src, (src, t.name) ∈ exitColumnMap type suffix ∧
      t = { name := t.name
            x := (sortByDate (filterOrg df org_id)).map Row.yyyymmdd
            y := smoothSeries smooth window
                  (seriesFor (sortByDate (filterOrg df org_id)) src)
            mode := "lines"
            stackgroup := some ("one")
            hovertemplate := exitHover t.name } := by
  rw [(plotExit_ok h).2, List.mem_filterMap] at ht
  obtain ⟨col, -, hcol⟩ := ht
  revert hcol
  cases hfind : (exitColumnMap type suffix).find? (fun p => p.2 == col) with
  | none => intro hcol; exact absurd hcol (by simp)
  | some p =>
    intro hcol
    have hp2 : p.2 = col := by
      have := List.find?_some hfind
      simpa using this
    have hmem := List.mem_of_find?_eq_some hfind
    rw [Option.some.injEq] at hcol
    have hpc : (p.1, col) = p := by rw [← hp2]
    refine ⟨p.1, ?_, ?_⟩
    · rw [← hcol]
      show (p.1, col) ∈ exitColumnMap type suffix
      rw [hpc]; exact hmem
    · rw [← hcol]

/-- `assert_columns_present` only ever raises a `KeyError`. -/
lemma assert_columns_present_error {df : DataFrame} {cols : List String}
    {e : PlotError} (h : assert_columns_present df cols = .error e) :
    ∃ m, e = .keyError m := by
  unfold assert_columns_present at h
  split at h
  · simp at h
  · rw [Except.error.injEq] at h
    exact ⟨_, h.symm⟩

/-- The inventory column resolution only ever raises a `KeyError`. -/
lemma resolveInventoryColumn_error {df : DataFrame} {suffix : String}
    {e : PlotError} (h : resolveInventoryColumn df suffix = .error e) :
    ∃ m, e = .keyError m := by
  by_cases h1 : ("CInventAvg" ++ suffix) ∈ df.columns
  · simp [resolveInventoryColumn, h1] at h
  · by_cases h2 : "CInventAvg" ∈ df.columns
    · simp [resolveInventoryColumn, h1, h2] at h
    · simp [resolveInventoryColumn, h1, h2, Except.error.injEq] at h
      exact ⟨_, h.symm⟩

/-- An organization with no rows makes the exit plot raise the `ValueError`. -/
lemma plotExit_empty {df : DataFrame} {org_id : Int} {type suffix : String}
    {title : Option String} {smooth : Bool} {window : Nat}
    (h : filterOrg df org_id = []) :
    plot_monthly_exit_distribution_interactive df org_id type suffix title
      smooth window = .error (.valueError ("No data for this organization_id")) := by
  simp [plot_monthly_exit_distribution_interactive, h]

/-- An organization with no rows makes the inventory plot raise the
`ValueError`. -/
lemma plotInv_empty {df : DataFrame} {org_id : Int} {suffix : String}
    {title : Option String} {smooth : Bool} {window : Nat}
    (h : filterOrg df org_id = []) :
    plot_inventory_interactive df org_id suffix title smooth window
      = .error (.valueError ("No data for this organization_id")) := by
  simp [plot_inventory_interactive, h]

/-- A `ValueError` from the exit plot means the organization had no rows. -/
lemma plotExit_valueError {df : DataFrame} {org_id : Int} {type suffix : String}
    {title : Option String} {smooth : Bool} {window : Nat} {m : String}
    (h : plot_monthly_exit_distribution_interactive df org_id type suffix title
      smooth window = .error (.valueError m)) :
    filterOrg df org_id = [] := by
  simp only [plot_monthly_exit_distribution_interactive] at h
  cases hE : (filterOrg df org_id).isEmpty with
  | true => exact List.isEmpty_iff.mp hE
  | false =>
    rw [hE] at h
    simp only [Bool.false_eq_true, if_false] at h
    cases hA : assert_columns_present df ((exitColumnMap type suffix).map Prod.fst) with
    | error e =>
      obtain ⟨msg, rfl⟩ := assert_columns_present_error hA
      rw [hA] at h
      simp at h
    | ok u => rw [hA] at h; simp at h

/-- A `ValueError` from the inventory plot means the organization had no
rows. -/
lemma plotInv_valueError {df : DataFrame} {org_id : Int} {suffix : String}
    {title : Option String} {smooth : Bool} {window : Nat} {m : String}
    (h : plot_inventory_interactive df org_id suffix title smooth window
      = .error (.valueError m)) :
    filterOrg df org_id = [] := by
  simp only [plot_inventory_interactive] at h
  cases hE : (filterOrg df org_id).isEmpty with
  | true => exact List.isEmpty_iff.mp hE
  | false =>
    rw [hE] at h
    simp only [Bool.false_eq_true, if_false] at h
    cases hR : resolveInventoryColumn df suffix with
    | error e =>
      obtain ⟨msg, rfl⟩ := resolveInventoryColumn_error hR
      rw [hR] at h
      simp at h
    | ok mc => rw [hR] at h; simp at h

/-- The organization filter keeps no row exactly when no row carries the
selected organization id. -/
lemma filterOrg_eq_nil {df : DataFrame} {org_id : Int} :
    filterOrg df org_id = [] ↔ ∀ r ∈ df.rows, r.organization_id ≠ org_id := by
  simp [filterOrg, List.filter_eq_nil_iff]

/-! ## The claims -/

/-- Claim C2: CSV parsing applies its fallback strategies in a fixed order,
returns the result of the first strategy that succeeds, and raises an
exception only if all four strategies fail (the exception raised being the
fourth strategy's). -/
theorem claim_C2_csv_fallback {β ε α : Type} (s1 s2 s3 s4 : β → Except ε α)
    (b : β) :
    (∀ d, s1 b = .ok d → read_csv_bytes s1 s2 s3 s4 b = .ok d) ∧
    (∀ e d, s1 b = .error e → s2 b = .ok d →
      read_csv_bytes s1 s2 s3 s4 b = .ok d) ∧
    (∀ e e' d, s1 b = .error e → s2 b = .error e' → s3 b = .ok d →
      read_csv_bytes s1 s2 s3 s4 b = .ok d) ∧
    (∀ e e' e'', s1 b = .error e → s2 b = .error e' → s3 b = .error e'' →
      read_csv_bytes s1 s2 s3 s4 b = s4 b) ∧
    ((∃ err, read_csv_bytes s1 s2 s3 s4 b = .error err) ↔
      (∃ e₁ e₂ e₃ e₄, s1 b = .error e₁ ∧ s2 b = .error e₂ ∧ s3 b = .error e₃ ∧
        s4 b = .error e₄)) := by
  refine ⟨?_, ?_, ?_, ?_, ?_⟩
  · intro d h; simp [read_csv_bytes, h]
  · intro e d h1 h2; simp [read_csv_bytes, h1, h2]
  · intro e e' d h1 h2 h3; simp [read_csv_bytes, h1, h2, h3]
  · intro e e' e'' h1 h2 h3; simp [read_csv_bytes, h1, h2, h3]
  · cases h1 : s1 b with
    | ok d => simp [read_csv_bytes, h1]
    | error e1 =>
      cases h2 : s2 b with
      | ok d => simp [read_csv_bytes, h1, h2]
      | error e2 =>
        cases h3 : s3 b with
        | ok d => simp [read_csv_bytes, h1, h2, h3]
        | error e3 =>
          cases h4 : s4 b with
          | ok d => simp [read_csv_bytes, h1, h2, h3, h4]
          | error e4 => simp [read_csv_bytes, h1, h2, h3, h4]

/-- Witness for C2: with the first strategy failing and the second
succeeding, the loader returns the second strategy's result. -/
theorem claim_C2_csv_fallback_witness :
    read_csv_bytes (fun _ : Nat => (.error ("bad header") : Except String Nat))
      (fun n => .ok (n + 1)) (fun _ => .error ("e3")) (fun _ => .error ("e4")) 5
      = .ok 6 :=
  (claim_C2_csv_fallback (fun _ : Nat => (.error ("bad header") : Except String Nat))
    (fun n => .ok (n + 1)) (fun _ => .error ("e3")) (fun _ => .error ("e4"))
    5).2.1 ("bad header") 6 rfl rfl

/-- Claim C1: with smoothing enabled, every trace's display series is the
(simple, centred) moving average of the raw stored column series over the
chosen window; with smoothing disabled it is the raw stored column series
unchanged — for both plot functions. -/
theorem claim_C1_smoothing (df : DataFrame) (org_id : Int)
    (type suffix : String) (title : Option String) (window : Nat) :
    (∀ fig, plot_monthly_exit_distribution_interactive df org_id type suffix
        title true window = .ok fig →
      ∀ t ∈ fig.traces, ∃ src, (src, t.name) ∈ exitColumnMap type suffix ∧
        t.y = rollingMeanCenter window 1
          (seriesFor (sortByDate (filterOrg df org_id)) src)) ∧
    (∀ fig, plot_monthly_exit_distribution_interactive df org_id type suffix
        title false window = .ok fig →
      ∀ t ∈ fig.traces, ∃ src, (src, t.name) ∈ exitColumnMap type suffix ∧
        t.y = (seriesFor (sortByDate (filterOrg df org_id)) src).map some) ∧
    (∀ fig, plot_inventory_interactive df org_id suffix title true window
        = .ok fig →
      ∃ src, resolveInventoryColumn df suffix = .ok src ∧
        fig.traces.map Trace.y = [rollingMeanCenter window 1
          (seriesFor (sortByDate (filterOrg df org_id)) src)]) ∧
    (∀ fig, plot_inventory_interactive df org_id suffix title false window
        = .ok fig →
      ∃ src, resolveInventoryColumn df suffix = .ok src ∧
        fig.traces.map Trace.y
          = [(seriesFor (sortByDate (filterOrg df org_id)) src).map some]) := by
  refine ⟨?_, ?_, ?_, ?_⟩
  · intro fig h t ht
    obtain ⟨src, hsrc, hte⟩ := mem_exitTraces h ht
    refine ⟨src, hsrc, ?_⟩
    rw [hte]
    simp [smoothSeries]
  · intro fig h t ht
    obtain ⟨src, hsrc, hte⟩ := mem_exitTraces h ht
    refine ⟨src, hsrc, ?_⟩
    rw [hte]
    simp [smoothSeries]
  · intro fig h
    obtain ⟨hne, mc, hmc, htr⟩ := plotInv_ok h
    refine ⟨mc, hmc, ?_⟩
    rw [htr]
    simp [smoothSeries]
  · intro fig h
    obtain ⟨hne, mc, hmc, htr⟩ := plotInv_ok h
    refine ⟨mc, hmc, ?_⟩
    rw [htr]
    simp [smoothSeries]

/-- Witness for C1: on the test dataset, a smoothed exit figure's traces are
the rolling means of their source columns, and the unsmoothed inventory
figure shows the raw stored values. -/
theorem claim_C1_smoothing_witness :
    (∀ t ∈ figExitSm.traces, ∃ src,
      (src, t.name) ∈ exitColumnMap ("_abs") "_zeros_replaced" ∧
      t.y = rollingMeanCenter 3 1
        (seriesFor (sortByDate (filterOrg dfW 1)) src)) ∧
    (∃ src, resolveInventoryColumn dfW ("_zeros_replaced") = .ok src ∧
      figInvRaw.traces.map Trace.y
        = [(seriesFor (sortByDate (filterOrg dfW 1)) src).map some]) :=
  ⟨(claim_C1_smoothing dfW 1 ("_abs") "_zeros_replaced" none 3).1 figExitSm rfl,
   (claim_C1_smoothing dfW 1 ("_abs") "_zeros_replaced" none 3).2.2.2 figInvRaw
     rfl⟩

/-- Claim C3: each plot operation derives its output only from the rows
whose organization id equals the selected one (datasets agreeing on their
columns and on the filtered rows yield identical plots), and it fails with
the `ValueError` exactly when no row carries that id. -/
theorem claim_C3_org_filtering (df : DataFrame) (org_id : Int)
    (type suffix : String) (title : Option String) (smooth : Bool)
    (window : Nat) :
    ((∃ m, plot_monthly_exit_distribution_interactive df org_id type suffix
        title smooth window = .error (.valueError m)) ↔
      ∀ r ∈ df.rows, r.organization_id ≠ org_id) ∧
    ((∃ m, plot_inventory_interactive df org_id suffix title smooth window
        = .error (.valueError m)) ↔
      ∀ r ∈ df.rows, r.organization_id ≠ org_id) ∧
    (∀ df₂ : DataFrame, df₂.columns = df.columns →
      filterOrg df₂ org_id = filterOrg df org_id →
      plot_monthly_exit_distribution_interactive df₂ org_id type suffix title
          smooth window
        = plot_monthly_exit_distribution_interactive df org_id type suffix
          title smooth window ∧
      plot_inventory_interactive df₂ org_id suffix title smooth window
        = plot_inventory_interactive df org_id suffix title smooth window) := by
  refine ⟨⟨?_, ?_⟩, ⟨?_, ?_⟩, ?_⟩
  · rintro ⟨m, hm⟩
    exact filterOrg_eq_nil.mp (plotExit_valueError hm)
  · intro hall
    exact ⟨_, plotExit_empty (filterOrg_eq_nil.mpr hall)⟩
  · rintro ⟨m, hm⟩
    exact filterOrg_eq_nil.mp (plotInv_valueError hm)
  · intro hall
    exact ⟨_, plotInv_empty (filterOrg_eq_nil.mpr hall)⟩
  · intro df₂ hcols hfilt
    have hassert : ∀ cols, assert_columns_present df₂ cols
        = assert_columns_present df cols := by
      intro cols; simp [assert_columns_present, hcols]
    have hres : resolveInventoryColumn df₂ suffix
        = resolveInventoryColumn df suffix := by
      simp [resolveInventoryColumn, hcols]
    have hname : ∀ rs, orgNameOf df₂ rs org_id = orgNameOf df rs org_id := by
      intro rs; simp [orgNameOf, hcols]
    constructor
    · simp only [plot_monthly_exit_distribution_interactive, hfilt, hassert,
        hname]
    · simp only [plot_inventory_interactive, hfilt, hres, hname]

/-- Witness for C3: appending a row of another organization changes neither
plot. -/
theorem claim_C3_org_filtering_witness :
    plot_monthly_exit_distribution_interactive dfV 1 ("_abs") "_zeros_replaced"
        none false 3
      = plot_monthly_exit_distribution_interactive dfW 1 ("_abs")
        "_zeros_replaced" none false 3 ∧
    plot_inventory_interactive dfV 1 ("_zeros_replaced") none false 3
      = plot_inventory_interactive dfW 1 ("_zeros_replaced") none false 3 :=
  (claim_C3_org_filtering dfW 1 ("_abs") "_zeros_replaced" none false
    3).2.2 dfV rfl rfl

/-- Claim C4: the inventory plot uses the column `"CInventAvg" ++ suffix`
when present, falls back to the bare `"CInventAvg"` column when only that
one is present, and (reaching the resolution step) raises a `KeyError`
exactly when neither column exists. -/
theorem claim_C4_inventory_column (df : DataFrame) (org_id : Int)
    (suffix : String) (title : Option String) (smooth : Bool) (window : Nat)
    (hne : filterOrg df org_id ≠ []) :
    (("CInventAvg" ++ suffix) ∈ df.columns →
      ∃ fig, plot_inventory_interactive df org_id suffix title smooth window
          = .ok fig ∧
        fig.traces.map Trace.y = [smoothSeries smooth window
          (seriesFor (sortByDate (filterOrg df org_id))
            ("CInventAvg" ++ suffix))]) ∧
    (("CInventAvg" ++ suffix) ∉ df.columns → "CInventAvg" ∈ df.columns →
      ∃ fig, plot_inventory_interactive df org_id suffix title smooth window
          = .ok fig ∧
        fig.traces.map Trace.y = [smoothSeries smooth window
          (seriesFor (sortByDate (filterOrg df org_id)) "CInventAvg")]) ∧
    ((∃ m, plot_inventory_interactive df org_id suffix title smooth window
        = .error (.keyError m)) ↔
      (("CInventAvg" ++ suffix) ∉ df.columns ∧ "CInventAvg" ∉ df.columns)) := by
  have hEf : (filterOrg df org_id).isEmpty = false := by
    rw [Bool.eq_false_iff]
    intro hT
    exact hne (List.isEmpty_iff.mp hT)
  refine ⟨?_, ?_, ?_, ?_⟩
  · intro hv
    have hres : resolveInventoryColumn df suffix
        = .ok ("CInventAvg" ++ suffix) := by
      simp [resolveInventoryColumn, hv]
    simp only [plot_inventory_interactive, hEf, Bool.false_eq_true, if_false,
      hres]
    exact ⟨_, rfl, rfl⟩
  · intro hv hb
    have hres : resolveInventoryColumn df suffix = .ok ("CInventAvg") := by
      simp [resolveInventoryColumn, hv, hb]
    simp only [plot_inventory_interactive, hEf, Bool.false_eq_true, if_false,
      hres]
    exact ⟨_, rfl, rfl⟩
  · rintro ⟨m, hm⟩
    by_cases hv : ("CInventAvg" ++ suffix) ∈ df.columns
    · have hres : resolveInventoryColumn df suffix
          = .ok ("CInventAvg" ++ suffix) := by
        simp [resolveInventoryColumn, hv]
      simp only [plot_inventory_interactive, hEf, Bool.false_eq_true, if_false,
        hres] at hm
      simp at hm
    · by_cases hb : "CInventAvg" ∈ df.columns
      · have hres : resolveInventoryColumn df suffix = .ok ("CInventAvg") := by
          simp [resolveInventoryColumn, hv, hb]
        simp only [plot_inventory_interactive, hEf, Bool.false_eq_true,
          if_false, hres] at hm
        simp at hm
      · exact ⟨hv, hb⟩
  · rintro ⟨hv, hb⟩
    have hres : resolveInventoryColumn df suffix
        = .error (.keyError ("Missing required column: "
          ++ ("CInventAvg" ++ suffix))) := by
      simp [resolveInventoryColumn, hv, hb]
    refine ⟨"Missing required column: " ++ ("CInventAvg" ++ suffix), ?_⟩
    simp only [plot_inventory_interactive, hEf, Bool.false_eq_true, if_false,
      hres]

/-- Witness for C4: on the test dataset, the suffixed column is used when
present; without it the plot falls back to the bare column; with neither
column a `KeyError` is raised. -/
theorem claim_C4_inventory_column_witness :
    (∃ fig, plot_inventory_interactive dfW 1 ("_zeros_replaced") none false 3
        = .ok fig ∧
      fig.traces.map Trace.y = [smoothSeries false 3
        (seriesFor (sortByDate (filterOrg dfW 1)) "CInventAvg_zeros_replaced")]) ∧
    (∃ fig, plot_inventory_interactive dfNoVariant 1 ("_zeros_replaced") none
        false 3 = .ok fig ∧
      fig.traces.map Trace.y = [smoothSeries false 3
        (seriesFor (sortByDate (filterOrg dfNoVariant 1)) "CInventAvg")]) ∧
    (∃ m, plot_inventory_interactive dfNoInventory 1 ("_zeros_replaced") none
        false 3 = .error (.keyError m)) := by
  have hneW : filterOrg dfW 1 ≠ [] := by
    intro h
    have hl : (filterOrg dfW 1).length = 2 := rfl
    rw [h] at hl
    exact absurd hl (by decide)
  have hneV : filterOrg dfNoVariant 1 ≠ [] := by
    intro h
    have hl : (filterOrg dfNoVariant 1).length = 2 := rfl
    rw [h] at hl
    exact absurd hl (by decide)
  have hneI : filterOrg dfNoInventory 1 ≠ [] := by
    intro h
    have hl : (filterOrg dfNoInventory 1).length = 2 := rfl
    rw [h] at hl
    exact absurd hl (by decide)
  refine ⟨?_, ?_, ?_⟩
  · exact (claim_C4_inventory_column dfW 1 ("_zeros_replaced") none false 3
      hneW).1 (by decide)
  · exact (claim_C4_inventory_column dfNoVariant 1 ("_zeros_replaced") none
      false 3 hneV).2.1 (by decide) (by decide)
  · exact (claim_C4_inventory_column dfNoInventory 1 ("_zeros_replaced") none
      false 3 hneI).2.2.mpr ⟨by decide, by decide⟩

/-- Claim C6: every exit-distribution trace is a stacked-area trace (its
`stackgroup` is set), the inventory trace draws lines (with markers) and is
not stacked, and every trace carries a hover template that formats the date
(the x placeholder) and the value (the y placeholder). -/
theorem claim_C6_trace_style (df : DataFrame) (org_id : Int)
    (type suffix : String) (title : Option String) (smooth : Bool)
    (window : Nat) :
    (∀ fig, plot_monthly_exit_distribution_interactive df org_id type suffix
        title smooth window = .ok fig →
      ∀ t ∈ fig.traces, t.mode = "lines" ∧ t.stackgroup = some ("one") ∧
        occursIn ("%\x7bx") t.hovertemplate ∧
        occursIn ("%\x7by") t.hovertemplate) ∧
    (∀ fig, plot_inventory_interactive df org_id suffix title smooth window
        = .ok fig →
      ∃ t, fig.traces = [t] ∧ t.mode = "lines+markers" ∧
        (∃ rest, t.mode.data = "lines".data ++ rest) ∧ t.stackgroup = none ∧
        occursIn ("%\x7bx") t.hovertemplate ∧
        occursIn ("%\x7by") t.hovertemplate) := by
  constructor
  · intro fig h t ht
    obtain ⟨src, hsrc, hte⟩ := mem_exitTraces h ht
    rw [hte]
    exact ⟨rfl, rfl, exitHover_date t.name, exitHover_value t.name⟩
  · intro fig h
    obtain ⟨hne, mc, hmc, htr⟩ := plotInv_ok h
    exact ⟨_, htr, rfl, ⟨"+markers".data, rfl⟩, rfl, inventoryHover_date,
      inventoryHover_value⟩

/-- Witness for C6: the traces of concrete figures of the test dataset are
styled and hover-formatted as claimed. -/
theorem claim_C6_trace_style_witness :
    (∀ t ∈ figExitRaw.traces, t.mode = "lines" ∧ t.stackgroup = some ("one") ∧
      occursIn ("%\x7bx") t.hovertemplate ∧ occursIn ("%\x7by") t.hovertemplate) ∧
    (∃ t, figInvRaw.traces = [t] ∧ t.mode = "lines+markers" ∧
      (∃ rest, t.mode.data = "lines".data ++ rest) ∧ t.stackgroup = none ∧
      occursIn ("%\x7bx") t.hovertemplate ∧ occursIn ("%\x7by") t.hovertemplate) :=
  ⟨(claim_C6_trace_style dfW 1 ("_abs") "_zeros_replaced" none false 3).1
      figExitRaw rfl,
   (claim_C6_trace_style dfW 1 ("_abs") "_zeros_replaced" none false 3).2
      figInvRaw rfl⟩

/-- Claim C10: in every chart produced by either plot function, each trace's
x values are the dates of the organization's rows sorted by the `yyyymmdd`
key, and they appear in nondecreasing order. -/
theorem claim_C10_sorted_dates (df : DataFrame) (org_id : Int)
    (type suffix : String) (title : Option String) (smooth : Bool)
    (window : Nat) :
    (∀ fig, plot_monthly_exit_distribution_interactive df org_id type suffix
        title smooth window = .ok fig →
      ∀ t ∈ fig.traces,
        t.x = (sortByDate (filterOrg df org_id)).map Row.yyyymmdd ∧
        List.Sorted (· ≤ ·) t.x) ∧
    (∀ fig, plot_inventory_interactive df org_id suffix title smooth window
        = .ok fig →
      ∀ t ∈ fig.traces,
        t.x = (sortByDate (filterOrg df org_id)).map Row.yyyymmdd ∧
        List.Sorted (· ≤ ·) t.x) := by
  have hsorted : ∀ rs : List Row,
      List.Sorted (· ≤ ·) ((sortByDate rs).map Row.yyyymmdd) := by
    intro rs
    have h := List.sorted_insertionSort dateLE rs
    exact List.pairwise_map.mpr h
  constructor
  · intro fig h t ht
    obtain ⟨src, hsrc, hte⟩ := mem_exitTraces h ht
    rw [hte]
    exact ⟨rfl, hsorted _⟩
  · intro fig h t ht
    obtain ⟨hne, mc, hmc, htr⟩ := plotInv_ok h
    rw [htr] at ht
    rw [List.mem_singleton] at ht
    rw [ht]
    exact ⟨rfl, hsorted _⟩

/-- Witness for C10: the concrete figures of the test dataset (whose rows
are out of order) carry sorted dates. -/
theorem claim_C10_sorted_dates_witness :
    (∀ t ∈ figExitRaw.traces,
      t.x = (sortByDate (filterOrg dfW 1)).map Row.yyyymmdd ∧
      List.Sorted (· ≤ ·) t.x) ∧
    (∀ t ∈ figInvRaw.traces,
      t.x = (sortByDate (filterOrg dfW 1)).map Row.yyyymmdd ∧
      List.Sorted (· ≤ ·) t.x) :=
  ⟨(claim_C10_sorted_dates dfW 1 ("_abs") "_zeros_replaced" none false 3).1
      figExitRaw rfl,
   (claim_C10_sorted_dates dfW 1 ("_abs") "_zeros_replaced" none false 3).2
      figInvRaw rfl⟩

/-- Claim C9: for the `"_cond"` type the required and plotted outcome series
are exactly Adopt, Reclaim, Transfer and Non-live; for any other type the
"No Exit" series is additionally required and plotted. -/
theorem claim_C9_no_exit_by_type (df : DataFrame) (org_id : Int)
    (type suffix : String) (title : Option String) (smooth : Bool)
    (window : Nat) :
    ((exitColumnMap ("_cond") suffix).map Prod.snd
      = ["Adopt", "Reclaim", "Transfer", "Non-live"]) ∧
    (type ≠ "_cond" → (exitColumnMap type suffix).map Prod.snd
      = ["Adopt", "Reclaim", "Transfer", "Non-live", "No Exit"]) ∧
    (∀ fig, plot_monthly_exit_distribution_interactive df org_id ("_cond")
        suffix title smooth window = .ok fig →
      fig.traces.map Trace.name = ["Adopt", "Reclaim", "Transfer", "Non-live"]) ∧
    (type ≠ "_cond" →
      ∀ fig, plot_monthly_exit_distribution_interactive df org_id type suffix
        title smooth window = .ok fig →
      fig.traces.map Trace.name
        = ["Adopt", "Reclaim", "Transfer", "Non-live", "No Exit"]) := by
  refine ⟨by simp [exitColumnMap], ?_, ?_, ?_⟩
  · intro h
    simp [exitColumnMap, h]
  · intro fig h
    rw [(plotExit_ok h).2]
    rfl
  · intro hne fig h
    rw [(plotExit_ok h).2]
    have hmap : exitColumnMap type suffix
        = [("PAdopt_monthly" ++ type ++ suffix, "Adopt"),
           ("PReclaim_monthly" ++ type ++ suffix, "Reclaim"),
           ("PTransfer_monthly" ++ type ++ suffix, "Transfer"),
           ("PNonlive_monthly" ++ type ++ suffix, "Non-live"),
           ("PNoExit_monthly" ++ type ++ suffix, "No Exit")] := by
      simp [exitColumnMap, hne]
    rw [hmap]
    rfl

/-- Witness for C9: on the test dataset the conditional figure plots four
series and the absolute figure five. -/
theorem claim_C9_no_exit_by_type_witness :
    figExitCond.traces.map Trace.name
      = ["Adopt", "Reclaim", "Transfer", "Non-live"] ∧
    figExitRaw.traces.map Trace.name
      = ["Adopt", "Reclaim", "Transfer", "Non-live", "No Exit"] :=
  ⟨(claim_C9_no_exit_by_type dfW 1 ("_abs") "_zeros_replaced" none false
      3).2.2.1 figExitCond rfl,
   (claim_C9_no_exit_by_type dfW 1 ("_abs") "_zeros_replaced" none false
      3).2.2.2 (by decide) figExitRaw rfl⟩

/-- Counterexample to claim C7 as stated: on a concrete dataset, without
smoothing, the y values handed to the chart are exactly the stored column
values of the sorted rows (wrapped in `some`) for every trace of both plot
functions — no metric's y values differ from the stored values by any
unit-conversion factor. -/
theorem claim_C7_counterexample :
    plot_monthly_exit_distribution_interactive dfW 1 ("_abs") "_zeros_replaced"
        none false 3 = .ok figExitRaw ∧
    figExitRaw.traces.map Trace.y
      = (exitColumnMap ("_abs") "_zeros_replaced").map
        (fun p => (seriesFor (sortByDate (filterOrg dfW 1)) p.1).map some) ∧
    figExitRaw.traces.map Trace.y
      = [[some (1/10), some (1/5)], [some (1/10), some (1/5)],
         [some (1/10), some (1/5)], [some (1/10), some (1/5)],
         [some (1/10), some (1/5)]] ∧
    plot_inventory_interactive dfW 1 ("_zeros_replaced") none false 3
      = .ok figInvRaw ∧
    figInvRaw.traces.map Trace.y
      = [(seriesFor (sortByDate (filterOrg dfW 1))
          "CInventAvg_zeros_replaced").map some] ∧
    figInvRaw.traces.map Trace.y = [[some 30, some 40]] :=
  ⟨rfl, rfl, rfl, rfl, rfl, rfl⟩

/-- Claim C7 (amended): no unit scaling is applied when deriving a display
series — without smoothing, the y values handed to the chart are exactly the
stored column values (unit presentation happens only in the hover/tick
format strings). -/
theorem claim_C7_no_unit_scaling (df : DataFrame) (org_id : Int)
    (type suffix : String) (title : Option String) (window : Nat) :
    (∀ fig, plot_monthly_exit_distribution_interactive df org_id type suffix
        title false window = .ok fig →
      ∀ t ∈ fig.traces, ∃ src, (src, t.name) ∈ exitColumnMap type suffix ∧
        t.y = (seriesFor (sortByDate (filterOrg df org_id)) src).map some) ∧
    (∀ fig, plot_inventory_interactive df org_id suffix title false window
        = .ok fig →
      ∃ src, resolveInventoryColumn df suffix = .ok src ∧
        fig.traces.map Trace.y
          = [(seriesFor (sortByDate (filterOrg df org_id)) src).map some]) := by
  constructor
  · intro fig h t ht
    obtain ⟨src, hsrc, hte⟩ := mem_exitTraces h ht
    refine ⟨src, hsrc, ?_⟩
    rw [hte]
    simp [smoothSeries]
  · intro fig h
    obtain ⟨hne, mc, hmc, htr⟩ := plotInv_ok h
    refine ⟨mc, hmc, ?_⟩
    rw [htr]
    simp [smoothSeries]

/-- Witness for the amended C7: the unsmoothed conditional figure of the
test dataset shows stored values unchanged. -/
theorem claim_C7_no_unit_scaling_witness :
    ∀ t ∈ figExitCond.traces, ∃ src,
      (src, t.name) ∈ exitColumnMap ("_cond") "_zeros_replaced" ∧
      t.y = (seriesFor (sortByDate (filterOrg dfW 1)) src).map some :=
  (claim_C7_no_unit_scaling dfW 1 ("_cond") "_zeros_replaced" none 3).1
    figExitCond rfl

/-- Claim C8: for a positive window, the smoothing step preserves the
series' length; the window of each position is nonempty (so `min_periods=1`
yields no missing output anywhere, boundaries included), contains at most
`window` points, contains the point itself (it is the centred window
restricted to the points that exist), and each output point is the
arithmetic mean of its window. -/
theorem claim_C8_rolling_window (w : Nat) (xs : List ℚ) (hw : 1 ≤ w) :
    (rollingMeanCenter w 1 xs).length = xs.length ∧
    ∀ i, i < xs.length →
      0 < (windowSlice w xs i).length ∧
      (windowSlice w xs i).length ≤ w ∧
      (∀ v, xs[i]? = some v → v ∈ windowSlice w xs i) ∧
      (rollingMeanCenter w 1 xs)[i]?
        = some (some ((windowSlice w xs i).sum
            / ((windowSlice w xs i).length : ℚ))) := by
  have hoff : rollOffset w ≤ w - 1 := Nat.div_le_self _ _
  constructor
  · simp [rollingMeanCenter]
  · intro i hi
    have hlen : (windowSlice w xs i).length
        = min (i + 1 + rollOffset w) xs.length - (i + 1 + rollOffset w - w) := by
      simp [windowSlice, List.length_drop, List.length_take]
    have h1 : 0 < (windowSlice w xs i).length := by
      rw [hlen]; omega
    have h2 : (windowSlice w xs i).length ≤ w := by
      rw [hlen]; omega
    refine ⟨h1, h2, ?_, ?_⟩
    · intro v hv
      have hget : (windowSlice w xs i)[i - (i + 1 + rollOffset w - w)]?
          = some v := by
        unfold windowSlice
        rw [List.getElem?_drop]
        have hix : (i + 1 + rollOffset w - w)
            + (i - (i + 1 + rollOffset w - w)) = i := by omega
        rw [hix, List.getElem?_take, if_pos (by omega)]
        exact hv
      obtain ⟨hlt, hgetE⟩ := List.getElem?_eq_some.mp hget
      rw [← hgetE]
      exact List.getElem_mem hlt
    · have hmap : (rollingMeanCenter w 1 xs)[i]?
          = some (if (windowSlice w xs i).length < 1 then none
              else some ((windowSlice w xs i).sum
                / ((windowSlice w xs i).length : ℚ))) := by
        rw [rollingMeanCenter, List.getElem?_map, List.getElem?_range hi]
        rfl
      rw [hmap, if_neg (by omega)]

/-- Witness for C8: a concrete even-window rolling mean keeps the length and
yields the window mean at an interior position. -/
theorem claim_C8_rolling_window_witness :
    (rollingMeanCenter 2 1 [1, 2, 4]).length = 3 ∧
    (rollingMeanCenter 2 1 [1, 2, 4])[1]?
      = some (some ((windowSlice 2 [1, 2, 4] 1).sum
          / ((windowSlice 2 [1, 2, 4] 1).length : ℚ))) := by
  have h := claim_C8_rolling_window 2 [1, 2, 4] (by decide)
  exact ⟨h.1, (h.2 1 (by decide)).2.2.2⟩

/-- Claim C5: the password gate. The `password_entered` callback records in
the auth state exactly whether the entered password equals the stored
secret; after it runs, the gate lets execution proceed precisely when they
were equal, and otherwise halts having shown the "Incorrect password" error;
the gate only ever proceeds when the auth state records a passed check, and
with no verdict recorded it halts without the error. -/
theorem claim_C5_password_gate (secret : String) (s : SessionState)
    (p : Option String) :
    (password_entered secret s).auth_passed = some (s.password == some secret) ∧
    check_password (password_entered secret s)
      = (if s.password = some secret then .proceed else .halted true) ∧
    (check_password s = .proceed ↔ s.auth_passed = some true) ∧
    check_password { auth_passed := none, password := p } = .halted false := by
  refine ⟨rfl, ?_, ?_, rfl⟩
  · by_cases h : s.password = some secret
    · simp [check_password, password_entered, h]
    · have hb : (s.password == some secret) = false := by
        simpa using h
      simp [check_password, password_entered, h, hb]
  · cases hA : s.auth_passed with
    | none => simp [check_password, hA]
    | some bv => cases bv <;> simp [check_password, hA]

/-- Witness for C5: the matching password proceeds, a mismatched one is
marked failed and halts at the gate with the error shown. -/
theorem claim_C5_password_gate_witness :
    check_password (password_entered ("hunter2") ⟨none, some ("hunter2")⟩)
      = .proceed ∧
    (password_entered ("hunter2") ⟨none, some ("wrong")⟩).auth_passed
      = some false ∧
    check_password (password_entered ("hunter2") ⟨none, some ("wrong")⟩)
      = .halted true := by
  have hok := (claim_C5_password_gate ("hunter2") ⟨none, some ("hunter2")⟩ none).2.1
  have hbad := claim_C5_password_gate ("hunter2") ⟨none, some ("wrong")⟩ none
  refine ⟨by simpa using hok, ?_, by simpa using hbad.2.1⟩
  have := hbad.1
  simpa using this

end SacApp
